import Mathlib

/-!
Verification of the waypoint-schemas Meilisearch helper layer
(`src/helpers/meilisearch.rs`).

The development shallowly embeds the repository's data model and
operations:

* `UserProfile` (the generated proto wire record, §3 of the design
  document) and `UserProfileDocument` (the search-store document type);
* the two `From` conversions (`docOfProfile` for
  `From<UserProfile> for UserProfileDocument`, `profileOfDoc` for
  `From<UserProfileDocument> for UserProfile`), with the implicit
  `Utc::now()` read modelled as an explicit `now` argument;
* the timestamp fallback chain (`u64` decimal parse, then the
  RFC3339 / chrono-pattern date-time chain guarded by the
  `contains('T') && contains('+')` heuristic, then the wall-clock
  fallback);
* the constant schema `get_user_profile_schema`, the orchestration
  functions `apply_user_profile_schema` and `search_user_profiles`
  with the external Meilisearch client modelled as explicit function
  arguments.

Machine integers are embedded as `Nat`/`Int` with explicit `% 2 ^ 64`
where Rust's `as u64` cast wraps.  The external chrono parsers are
modelled from their documented pattern semantics as the design
document's §4.1 describes them (four-digit year, two-digit fields,
optional fractional seconds, `±HH:MM` or `±HHMM` offsets, `Z` for the
RFC3339 form).
-/

/-- The generated proto wire record `waypoint.meilisearch.UserProfile`
(string id, `u64` fid, eight optional display strings, `u64` epoch
timestamp).  The `u64` fields are embedded as `Nat`; the `< 2 ^ 64`
range invariant is carried as a hypothesis where it matters. -/
structure UserProfile where
  id : String
  fid : Nat
  display_name : Option String
  username : Option String
  pfp_url : Option String
  bio : Option String
  url : Option String
  location : Option String
  twitter : Option String
  github : Option String
  updated_at : Nat
deriving DecidableEq, Repr

/-- The Serde document type `UserProfileDocument`: structurally the same
record with `updated_at` as a free-form string. -/
structure UserProfileDocument where
  id : String
  fid : Nat
  display_name : Option String
  username : Option String
  pfp_url : Option String
  bio : Option String
  url : Option String
  location : Option String
  twitter : Option String
  github : Option String
  updated_at : String
deriving DecidableEq, Repr

/-- The error enum `MeilisearchSchemaError` (Client / Schema /
Conversion, each carrying a message). -/
inductive MeilisearchSchemaError where
  | Client : String → MeilisearchSchemaError
  | Schema : String → MeilisearchSchemaError
  | Conversion : String → MeilisearchSchemaError
deriving DecidableEq, Repr

/-- Decimal digit value of a character, `none` for a non-digit
(ASCII `0`-`9` only, matching Rust's integer parsing). -/
def digitVal (c : Char) : Option Nat :=
  if c.isDigit then some (c.toNat - 48) else none

/-- Core of Rust's `str::parse::<u64>` on the character list after the
optional sign: one or more ASCII digits whose value fits in `u64`. -/
def parseU64Digits (cs : List Char) : Option Nat :=
  if cs.isEmpty then none
  else if cs.all Char.isDigit then
    let n := cs.foldl (fun acc c => acc * 10 + (c.toNat - 48)) 0
    if n < 2 ^ 64 then some n else none
  else none

/-- Rust's `doc.updated_at.parse::<u64>()` as an `Option`: an optional
leading `+`, then one or more ASCII digits, value at most
`u64::MAX`; everything else (empty string, other characters, a `-`
sign, overflow) is a parse error. -/
def parseU64 (s : String) : Option Nat :=
  match s.data with
  | '+' :: rest => parseU64Digits rest
  | cs => parseU64Digits cs

/-- Two mandatory decimal digits, returning the value and the rest of
the input. -/
def parse2 : List Char → Option (Nat × List Char)
  | c1 :: c2 :: rest =>
    match digitVal c1, digitVal c2 with
    | some d1, some d2 => some (d1 * 10 + d2, rest)
    | _, _ => none
  | _ => none

/-- Four mandatory decimal digits (the `%Y` year field), returning the
value and the rest of the input. -/
def parse4 : List Char → Option (Nat × List Char)
  | c1 :: c2 :: c3 :: c4 :: rest =>
    match digitVal c1, digitVal c2, digitVal c3, digitVal c4 with
    | some d1, some d2, some d3, some d4 =>
        some (((d1 * 10 + d2) * 10 + d3) * 10 + d4, rest)
    | _, _, _, _ => none
  | _ => none

/-- One mandatory literal character. -/
def expectChar (c : Char) : List Char → Option (List Char)
  | x :: rest => if x = c then some rest else none
  | [] => none

/-- The `%.f` fractional-second field: either absent, or a dot followed
by at least one digit.  The fraction never changes the whole-second
timestamp, so only the consumed input matters. -/
def skipFraction : List Char → Option (List Char)
  | '.' :: rest =>
      if (rest.takeWhile Char.isDigit).isEmpty then none
      else some (rest.dropWhile Char.isDigit)
  | cs => some cs

/-- Sign character of a UTC offset. -/
def offsetSign : Char → Option Int
  | '+' => some 1
  | '-' => some (-1)
  | _ => none

/-- A colon-separated UTC offset `±HH:MM`, returned in seconds. -/
def parseOffsetColon (cs : List Char) : Option (Int × List Char) :=
  match cs with
  | c :: rest =>
    match offsetSign c with
    | none => none
    | some sgn =>
      match parse2 rest with
      | none => none
      | some (hh, rest) =>
        match expectChar ':' rest with
        | none => none
        | some rest =>
          match parse2 rest with
          | none => none
          | some (mm, rest) =>
            if hh < 24 && mm < 60 then
              some (sgn * ((hh : Int) * 3600 + (mm : Int) * 60), rest)
            else none
  | [] => none

/-- A compact UTC offset `±HHMM`, returned in seconds. -/
def parseOffsetCompact (cs : List Char) : Option (Int × List Char) :=
  match cs with
  | c :: rest =>
    match offsetSign c with
    | none => none
    | some sgn =>
      match parse2 rest with
      | none => none
      | some (hh, rest) =>
        match parse2 rest with
        | none => none
        | some (mm, rest) =>
          if hh < 24 && mm < 60 then
            some (sgn * ((hh : Int) * 3600 + (mm : Int) * 60), rest)
          else none
  | [] => none

/-- The RFC3339 offset: `Z` (or `z`) for UTC, otherwise a
colon-separated numeric offset. -/
def parseOffsetRfc : List Char → Option (Int × List Char)
  | 'Z' :: rest => some (0, rest)
  | 'z' :: rest => some (0, rest)
  | cs => parseOffsetColon cs

/-- Leap-year test of the proleptic Gregorian calendar. -/
def isLeapYear (y : Nat) : Bool :=
  y % 4 = 0 && (y % 100 ≠ 0 || y % 400 = 0)

/-- Number of days in a month (month `1`-`12`). -/
def daysInMonth (y m : Nat) : Nat :=
  match m with
  | 1 => 31
  | 2 => if isLeapYear y then 29 else 28
  | 3 => 31
  | 4 => 30
  | 5 => 31
  | 6 => 30
  | 7 => 31
  | 8 => 31
  | 9 => 30
  | 10 => 31
  | 11 => 30
  | 12 => 31
  | _ => 0

/-- Calendar validity of a parsed `%Y-%m-%d` date. -/
def validDate (y m d : Nat) : Bool :=
  1 ≤ m && m ≤ 12 && 1 ≤ d && d ≤ daysInMonth y m

/-- Days from the Unix epoch (1970-01-01) to the civil date `y-m-d`,
negative for earlier dates (the standard days-from-civil algorithm
over the proleptic Gregorian calendar, with floor division). -/
def daysFromCivil (y m d : Int) : Int :=
  let y := if m ≤ 2 then y - 1 else y
  let era := y.fdiv 400
  let yoe := y - era * 400
  let mp := (m + 9) % 12
  let doy := (153 * mp + 2).fdiv 5 + d - 1
  let doe := yoe * 365 + yoe.fdiv 4 - yoe.fdiv 100 + doy
  era * 146097 + doe - 719468

/-- Epoch seconds of a parsed date-time with a UTC offset (the value of
chrono's `dt.timestamp()`, an `i64` instant). -/
def epochSeconds (y mo d h mi s : Nat) (off : Int) : Int :=
  daysFromCivil (y : Int) (mo : Int) (d : Int) * 86400 +
    ((h : Int) * 3600 + (mi : Int) * 60 + (s : Int)) - off

/-- One date-time pattern of the `%Y-%m-%dT%H:%M:%S` family: the shared
date-time body, an optional fractional-second field when `frac` is
set, and the given offset field, with the whole input consumed and the
calendar fields validated.  Returns the instant's epoch seconds. -/
def parseDateTimeWith (frac : Bool) (offP : List Char → Option (Int × List Char))
    (cs : List Char) : Option Int := do
  let (y, cs) ← parse4 cs
  let cs ← expectChar '-' cs
  let (mo, cs) ← parse2 cs
  let cs ← expectChar '-' cs
  let (d, cs) ← parse2 cs
  let cs ← expectChar 'T' cs
  let (h, cs) ← parse2 cs
  let cs ← expectChar ':' cs
  let (mi, cs) ← parse2 cs
  let cs ← expectChar ':' cs
  let (s, cs) ← parse2 cs
  let cs ← if frac then skipFraction cs else pure cs
  let (off, cs) ← offP cs
  if cs.isEmpty && validDate y mo d && h < 24 && mi < 60 && s < 60 then
    pure (epochSeconds y mo d h mi s off)
  else none

/-- `DateTime::parse_from_rfc3339`, modelled from the documented RFC3339
grammar: date, `T`, time, optional fraction, `Z` or `±HH:MM`. -/
def parseRfc3339 (cs : List Char) : Option Int :=
  parseDateTimeWith true parseOffsetRfc cs

/-- The ordered date-time fallback chain of the reverse conversion
(§4.1 step 2): RFC3339 first, then the four chrono patterns
`%Y-%m-%dT%H:%M:%S%.f%:z`, `%Y-%m-%dT%H:%M:%S%.f%z`,
`%Y-%m-%dT%H:%M:%S%:z`, `%Y-%m-%dT%H:%M:%S%z`, first success wins. -/
def parseDateTimeChain (cs : List Char) : Option Int :=
  match parseRfc3339 cs with
  | some t => some t
  | none =>
    match parseDateTimeWith true parseOffsetColon cs with
    | some t => some t
    | none =>
      match parseDateTimeWith true parseOffsetCompact cs with
      | some t => some t
      | none =>
        match parseDateTimeWith false parseOffsetColon cs with
        | some t => some t
        | none => parseDateTimeWith false parseOffsetCompact cs

/-- Rust's `as u64` cast of an `i64` value: two's-complement
reinterpretation, i.e. the value modulo `2 ^ 64`. -/
def u64OfInt (t : Int) : Nat :=
  (t % (2 ^ 64 : Int)).toNat

/-- The whole timestamp normalization of the reverse conversion
(`From<UserProfileDocument> for UserProfile`, the `updated_at`
binding): `parse::<u64>()`, or else the date-time chain guarded by the
`contains('T') && contains('+')` heuristic, or else the current
wall-clock time `now` (the explicit stand-in for
`Utc::now().timestamp() as u64`). -/
def timestampFromString (now : Nat) (s : String) : Nat :=
  match parseU64 s with
  | some n => n
  | none =>
    if s.data.contains 'T' && s.data.contains '+' then
      match parseDateTimeChain s.data with
      | some t => u64OfInt t
      | none => now
    else now

/-- `From<UserProfile> for UserProfileDocument`: every field copied
as-is, `updated_at` stringified with `u64::to_string` (decimal,
embedded as `Nat.repr`). -/
def docOfProfile (p : UserProfile) : UserProfileDocument :=
  { id := p.id
    fid := p.fid
    display_name := p.display_name
    username := p.username
    pfp_url := p.pfp_url
    bio := p.bio
    url := p.url
    location := p.location
    twitter := p.twitter
    github := p.github
    updated_at := Nat.repr p.updated_at }

/-- `From<UserProfileDocument> for UserProfile`: every field copied
as-is, `updated_at` normalized by the fallback chain, with the
wall-clock read passed in as `now`. -/
def profileOfDoc (now : Nat) (doc : UserProfileDocument) : UserProfile :=
  { id := doc.id
    fid := doc.fid
    display_name := doc.display_name
    username := doc.username
    pfp_url := doc.pfp_url
    bio := doc.bio
    url := doc.url
    location := doc.location
    twitter := doc.twitter
    github := doc.github
    updated_at := timestampFromString now doc.updated_at }

/-- With the reverse conversion's emitted diagnostics made explicit:
the `From<UserProfileDocument> for UserProfile` impl contains no
tracing call on any path, so its observable log output is the empty
event list. -/
def profileOfDocEvents (now : Nat) (doc : UserProfileDocument) :
    UserProfile × List String :=
  (profileOfDoc now doc, [])

/-- `user_profile_schema::IndexSettings` (proto message). -/
structure IndexSettings where
  name : String
  primary_key : String
deriving DecidableEq, Repr

/-- `user_profile_schema::SearchableAttributes` (proto message). -/
structure SearchableAttributes where
  attributes : List String
deriving DecidableEq, Repr

/-- `user_profile_schema::RankingRules` (proto message). -/
structure RankingRules where
  rules : List String
deriving DecidableEq, Repr

/-- `user_profile_schema::FilterableAttributes` (proto message). -/
structure FilterableAttributes where
  attributes : List String
deriving DecidableEq, Repr

/-- `user_profile_schema::SortableAttributes` (proto message). -/
structure SortableAttributes where
  attributes : List String
deriving DecidableEq, Repr

/-- The proto message `UserProfileSchema`: optional sub-messages and a
plain string `distinct_attribute` (proto string default `""`). -/
structure UserProfileSchema where
  index : Option IndexSettings
  searchable : Option SearchableAttributes
  ranking : Option RankingRules
  distinct_attribute : String
  filterable : Option FilterableAttributes
  sortable : Option SortableAttributes
deriving DecidableEq, Repr

/-- `get_user_profile_schema`: the source starts from
`UserProfileSchema::default()` and sets every field, which nets out to
this constant structure. -/
def get_user_profile_schema : UserProfileSchema :=
  let index : IndexSettings :=
    { name := "user_profiles", primary_key := "id" }
  let searchable : SearchableAttributes :=
    { attributes :=
        ["username", "display_name", "bio", "location", "twitter", "github", "fid"] }
  let ranking : RankingRules :=
    { rules := ["words", "typo", "proximity", "attribute", "sort", "exactness"] }
  let filterable : FilterableAttributes := { attributes := ["fid"] }
  let sortable : SortableAttributes := { attributes := ["fid", "updated_at"] }
  { index := some index
    searchable := some searchable
    ranking := some ranking
    distinct_attribute := "username"
    filterable := some filterable
    sortable := some sortable }

/-- The fixed Meilisearch ranking-rule vocabulary named by the design
document's §4.2. -/
def rankingVocabulary : List String :=
  ["words", "typo", "proximity", "attribute", "sort", "exactness"]

/-- The mutable `meilisearch_sdk::settings::Settings` builder, reduced
to the five attribute groups this code sets (`Settings::new()` leaves
them all unset). -/
structure Settings where
  searchable_attributes : Option (List String) := none
  ranking_rules : Option (List String) := none
  distinct_attribute : Option String := none
  filterable_attributes : Option (List String) := none
  sortable_attributes : Option (List String) := none
deriving DecidableEq, Repr

/-- Whether `needle` is a leading run of `hay` (character-exact). -/
def isPrefixList : List Char → List Char → Bool
  | [], _ => true
  | _ :: _, [] => false
  | a :: as, b :: bs => a == b && isPrefixList as bs

/-- Rust's `str::contains(&str)`: `needle` occurs as a contiguous
substring of `hay`. -/
def containsSub (needle : List Char) : List Char → Bool
  | [] => isPrefixList needle []
  | c :: cs => isPrefixList needle (c :: cs) || containsSub needle cs

/-- `apply_user_profile_schema`, with the Meilisearch client's two
store calls passed in as functions (`createIndex name primary_key` and
`setSettings index_name settings`, each answering a task uid or an
error message): unwrap the schema's index settings (the
`"No index settings provided"` Schema error if absent), create the
index treating an `index_already_exists` error as success, build the
settings from the present attribute groups, and push them. -/
def apply_user_profile_schema
    (createIndex : String → String → Except String Nat)
    (setSettings : String → Settings → Except String Nat) :
    Except MeilisearchSchemaError Unit :=
  let schema := get_user_profile_schema
  match schema.index with
  | none => Except.error (MeilisearchSchemaError.Schema "No index settings provided")
  | some index_settings =>
    let pushSettings : Unit → Except MeilisearchSchemaError Unit := fun _ =>
      let s0 : Settings := {}
      let s1 := match schema.searchable with
        | some searchable => { s0 with searchable_attributes := some searchable.attributes }
        | none => s0
      let s2 := match schema.ranking with
        | some ranking => { s1 with ranking_rules := some ranking.rules }
        | none => s1
      let s3 := if schema.distinct_attribute.data.isEmpty then s2
        else { s2 with distinct_attribute := some schema.distinct_attribute }
      let s4 := match schema.filterable with
        | some filterable => { s3 with filterable_attributes := some filterable.attributes }
        | none => s3
      let s5 := match schema.sortable with
        | some sortable => { s4 with sortable_attributes := some sortable.attributes }
        | none => s4
      match setSettings index_settings.name s5 with
      | Except.ok _ => Except.ok ()
      | Except.error e => Except.error (MeilisearchSchemaError.Client e)
    match createIndex index_settings.name index_settings.primary_key with
    | Except.ok _ => pushSettings ()
    | Except.error e =>
      if containsSub "index_already_exists".data e.data then pushSettings ()
      else Except.error (MeilisearchSchemaError.Client e)

/-- Whether a result is the `Schema` (SchemaConfigurationError)
variant. -/
def isSchemaConfigError : Except MeilisearchSchemaError Unit → Bool
  | Except.error (MeilisearchSchemaError.Schema _) => true
  | _ => false

/-- `search_user_profiles`, with the store's search call passed in as a
function of the query, limit, offset and filter (answering the hit
documents in relevance order, or an error message), and the wall-clock
read of the per-hit conversions as `now`: pass the four arguments
through, convert every hit back with `UserProfile::from`, in order. -/
def search_user_profiles
    (store : String → Option Nat → Option Nat → Option String →
      Except String (List UserProfileDocument))
    (query : String) (limit offset : Option Nat) (filter : Option String)
    (now : Nat) : Except MeilisearchSchemaError (List UserProfile) :=
  match store query limit offset filter with
  | Except.ok hits => Except.ok (hits.map (profileOfDoc now))
  | Except.error e => Except.error (MeilisearchSchemaError.Client e)

/-- A document with the given timestamp string and fixed profile
fields, for concrete instances. -/
def mkDoc (ts : String) : UserProfileDocument :=
  { id := "1"
    fid := 1
    display_name := some "Alice"
    username := some "alice"
    pfp_url := none
    bio := some "I love Farcaster!"
    url := none
    location := none
    twitter := some "alice_twitter"
    github := none
    updated_at := ts }

/-- A concrete wire record with a mix of present and absent optional
fields. -/
def exProfile : UserProfile :=
  { id := "2"
    fid := 2
    display_name := some "Bob"
    username := some "bob"
    pfp_url := none
    bio := some "Web3 enthusiast"
    url := none
    location := some "Lisbon"
    twitter := none
    github := some "bob_github"
    updated_at := 1646179200 }

/-- Whether the timestamp string is handled by step 1 or step 2 of the
fallback chain (so the wall-clock fallback is not reached). -/
def timestampParseOk (s : String) : Bool :=
  (parseU64 s).isSome ||
    (s.data.contains 'T' && s.data.contains '+' && (parseDateTimeChain s.data).isSome)

/-- Decimal digits of a natural number, most significant first (the
specification of `u64::to_string` used by the round-trip proofs). -/
def decDigits (n : Nat) : List Nat :=
  if n < 10 then [n] else decDigits (n / 10) ++ [n % 10]
decreasing_by exact Nat.div_lt_self (by omega) (by omega)

/-! Auxiliary facts about decimal digits, connecting `Nat.repr` (the
embedding of `u64::to_string`) with `parseU64` (the embedding of
`str::parse::<u64>`). -/

lemma decDigits_ne_nil (n : Nat) : decDigits n ≠ [] := by
  unfold decDigits
  split <;> simp

lemma decDigits_all_lt (n : Nat) : ∀ d ∈ decDigits n, d < 10 := by
  induction n using Nat.strong_induction_on with
  | _ n ih =>
    unfold decDigits
    split
    · next h => intro d hd; simp at hd; omega
    · next h =>
      intro d hd
      rcases List.mem_append.mp hd with h1 | h2
      · exact ih (n / 10) (Nat.div_lt_self (by omega) (by omega)) d h1
      · simp at h2; subst h2; exact Nat.mod_lt _ (by omega)

lemma decDigits_foldl (n : Nat) :
    ∀ acc : Nat, (decDigits n).foldl (fun a d => a * 10 + d) acc =
      acc * 10 ^ (decDigits n).length + n := by
  induction n using Nat.strong_induction_on with
  | _ n ih =>
    intro acc
    by_cases h : n < 10
    · rw [decDigits]
      simp [h]
    · have hrec := ih (n / 10) (Nat.div_lt_self (by omega) (by omega))
      rw [decDigits]
      simp only [h, if_false]
      rw [List.foldl_append, hrec acc]
      simp only [List.foldl_cons, List.foldl_nil, List.length_append, List.length_cons,
        List.length_nil]
      have hdm : n / 10 * 10 + n % 10 = n := by omega
      calc (acc * 10 ^ (decDigits (n / 10)).length + n / 10) * 10 + n % 10
          = acc * (10 ^ (decDigits (n / 10)).length * 10) + (n / 10 * 10 + n % 10) := by ring
        _ = acc * 10 ^ ((decDigits (n / 10)).length + 1) + n := by rw [pow_succ, hdm]

lemma digitChar_spec (d : Nat) (h : d < 10) :
    (Nat.digitChar d).isDigit = true ∧ (Nat.digitChar d).toNat - 48 = d ∧
      Nat.digitChar d ≠ '+' := by
  interval_cases d <;> exact ⟨by decide, by decide, by decide⟩

lemma toDigitsCore_eq (fuel : Nat) : ∀ (n : Nat) (acc : List Char), n < fuel →
    Nat.toDigitsCore 10 fuel n acc = (decDigits n).map Nat.digitChar ++ acc := by
  induction fuel with
  | zero => intro n acc h; omega
  | succ f ih =>
    intro n acc h
    unfold Nat.toDigitsCore
    by_cases h0 : n / 10 = 0
    · have hn : n < 10 := by omega
      simp only [h0, if_true]
      rw [decDigits]
      simp [hn, Nat.mod_eq_of_lt hn]
    · have hn : ¬ n < 10 := by omega
      simp only [h0, if_false]
      rw [ih (n / 10) (Nat.digitChar (n % 10) :: acc) (by omega)]
      conv_rhs => rw [decDigits]
      simp [hn]

lemma foldl_map_digitChar (l : List Nat) (hl : ∀ d ∈ l, d < 10) : ∀ acc : Nat,
    (l.map Nat.digitChar).foldl (fun a c => a * 10 + (c.toNat - 48)) acc =
      l.foldl (fun a d => a * 10 + d) acc := by
  induction l with
  | nil => intro acc; rfl
  | cons d rest ih =>
    intro acc
    simp only [List.map_cons, List.foldl_cons]
    rw [(digitChar_spec d (hl d (by simp))).2.1]
    exact ih (fun x hx => hl x (by simp [hx])) _

lemma repr_data (n : Nat) : (Nat.repr n).data = (decDigits n).map Nat.digitChar := by
  show (Nat.toDigits 10 n).asString.data = _
  unfold Nat.toDigits
  rw [toDigitsCore_eq (n + 1) n [] (by omega)]
  simp [List.asString]

lemma parseU64Digits_decDigits (n : Nat) (h : n < 2 ^ 64) :
    parseU64Digits ((decDigits n).map Nat.digitChar) = some n := by
  unfold parseU64Digits
  have hne : ((decDigits n).map Nat.digitChar).isEmpty = false := by
    rcases e : decDigits n with _ | ⟨d, ds⟩
    · exact absurd e (decDigits_ne_nil n)
    · simp
  have hall : ((decDigits n).map Nat.digitChar).all Char.isDigit = true := by
    rw [List.all_eq_true]
    intro c hc
    rcases List.mem_map.mp hc with ⟨d, hd, rfl⟩
    exact (digitChar_spec d (decDigits_all_lt n d hd)).1
  rw [hne, hall]
  simp only [Bool.false_eq_true, if_false, if_true]
  rw [foldl_map_digitChar (decDigits n) (decDigits_all_lt n) 0, decDigits_foldl n 0]
  simp only [Nat.zero_mul, Nat.zero_add]
  rw [if_pos h]

/-- Round-trip of the decimal stringification: reading back
`u64::to_string` with `str::parse::<u64>` recovers the value. -/
lemma parseU64_repr (n : Nat) (h : n < 2 ^ 64) : parseU64 (Nat.repr n) = some n := by
  unfold parseU64
  rw [repr_data n]
  rcases e : decDigits n with _ | ⟨d, ds⟩
  · exact absurd e (decDigits_ne_nil n)
  · have hd10 : d < 10 := decDigits_all_lt n d (by rw [e]; simp)
    have hplus : Nat.digitChar d ≠ '+' := (digitChar_spec d hd10).2.2
    simp only [List.map_cons]
    split
    · next heq =>
      exact absurd (List.cons.inj heq).1 hplus
    · next =>
      rw [← List.map_cons, ← e]
      exact parseU64Digits_decDigits n h

lemma parseU64Digits_eq_none {cs : List Char} {c : Char} (hm : c ∈ cs)
    (hc : c.isDigit = false) : parseU64Digits cs = none := by
  unfold parseU64Digits
  have hall : cs.all Char.isDigit = false := by
    rw [Bool.eq_false_iff]
    intro hall
    have := List.all_eq_true.mp hall c hm
    rw [hc] at this
    exact Bool.false_ne_true this
  rw [hall]
  split <;> simp

/-- A string containing a character that is neither a digit nor a
leading `+` is rejected by `str::parse::<u64>`. -/
lemma parseU64_eq_none {s : String} {c : Char} (hmem : c ∈ s.data)
    (hc : c.isDigit = false) (hplus : c ≠ '+') : parseU64 s = none := by
  unfold parseU64
  split
  · next rest heq =>
    apply parseU64Digits_eq_none (c := c) ?_ hc
    rw [heq] at hmem
    rcases List.mem_cons.mp hmem with h1 | h2
    · exact absurd h1 hplus
    · exact h2
  · next => exact parseU64Digits_eq_none hmem hc

/-- Step 1 of the fallback chain: a successful `u64` parse is used
directly. -/
lemma timestampFromString_of_parseU64 {s : String} {n : Nat} (h : parseU64 s = some n)
    (now : Nat) : timestampFromString now s = n := by
  unfold timestampFromString
  rw [h]

/-- Step 2 of the fallback chain: with the heuristic satisfied and the
date-time chain successful, the parsed instant is cast `as u64`. -/
lemma timestampFromString_of_chain {s : String} {t : Int}
    (hT : s.data.contains 'T' = true) (hP : s.data.contains '+' = true)
    (hu : parseU64 s = none) (hc : parseDateTimeChain s.data = some t) (now : Nat) :
    timestampFromString now s = u64OfInt t := by
  unfold timestampFromString
  rw [hu, hT, hP, hc]
  rfl

/-- Step 3 of the fallback chain: when the `u64` parse fails and either
the date-time chain fails or the heuristic does not hold, the
wall-clock value is substituted. -/
lemma timestampFromString_fallback {s : String} (hu : parseU64 s = none)
    (h : parseDateTimeChain s.data = none ∨
      (s.data.contains 'T' && s.data.contains '+') = false) (now : Nat) :
    timestampFromString now s = now := by
  unfold timestampFromString
  rw [hu]
  rcases hg : (s.data.contains 'T' && s.data.contains '+') with _ | _
  · rfl
  · rcases h with hc | hfalse
    · rw [hc]; rfl
    · rw [hg] at hfalse
      exact absurd hfalse (by simp)

/-- The timestamp normalization is independent of the wall clock
whenever step 1 or step 2 of the fallback chain succeeds. -/
lemma timestampFromString_indep {s : String} (h : timestampParseOk s = true)
    (t1 t2 : Nat) : timestampFromString t1 s = timestampFromString t2 s := by
  rcases hp : parseU64 s with _ | n
  · unfold timestampParseOk at h
    rw [hp] at h
    simp only [Option.isSome_none, Bool.false_or, Bool.and_eq_true] at h
    obtain ⟨⟨hT, hP⟩, hsome⟩ := h
    rcases Option.isSome_iff_exists.mp hsome with ⟨t, hc⟩
    rw [timestampFromString_of_chain hT hP hp hc t1,
      timestampFromString_of_chain hT hP hp hc t2]
  · rw [timestampFromString_of_parseU64 hp t1, timestampFromString_of_parseU64 hp t2]

/-- C1: for every Record, with any combination of optional fields
present or absent, converting forward to a Document and back returns
an equal Record: every field is copied unchanged in both directions,
and `updated_at` survives because the forward direction writes the
decimal string of the `u64` value, which the reverse direction's
first parsing step reads back exactly (for any wall-clock value). -/
theorem record_document_roundtrip (r : UserProfile) (now : Nat)
    (h : r.updated_at < 2 ^ 64) :
    profileOfDoc now (docOfProfile r) = r := by
  cases r with
  | mk id fid dn un pu bio url loc tw gh ua =>
    simp only [docOfProfile, profileOfDoc, UserProfile.mk.injEq, true_and, and_true]
    exact timestampFromString_of_parseU64 (parseU64_repr ua h) now

/-- Witness for C1 at a concrete Record mixing present and absent
optional fields. -/
theorem record_document_roundtrip_witness :
    profileOfDoc 0 (docOfProfile exProfile) = exProfile :=
  record_document_roundtrip exProfile 0 (by decide)

/-- C4: a Document whose `updated_at` is the decimal string of a `u64`
value `n` converts back with `updated_at = n`, through step 1 of the
fallback chain alone. -/
theorem reverse_numeric_string (now : Nat) (doc : UserProfileDocument) (n : Nat)
    (h64 : n < 2 ^ 64) (hs : doc.updated_at = Nat.repr n) :
    (profileOfDoc now doc).updated_at = n := by
  simp only [profileOfDoc]
  rw [hs]
  exact timestampFromString_of_parseU64 (parseU64_repr n h64) now

/-- Witness for C4 at the literal document timestamp "1646092800". -/
theorem reverse_numeric_string_witness :
    (profileOfDoc 0 (mkDoc "1646092800")).updated_at = 1646092800 :=
  reverse_numeric_string 0 (mkDoc "1646092800") 1646092800 (by decide) (by decide)

/-- C2 (amended): for every Document whose `updated_at` both contains a
literal `T` and a literal `+` (the code's step-2 heuristic) and parses
in the date-time chain to a non-negative `u64`-representable instant,
the reverse conversion yields exactly that instant's epoch seconds;
in particular each of the four literal pattern examples yields
1646092800. -/
theorem reverse_datetime_correct :
    (∀ (now : Nat) (doc : UserProfileDocument) (t : Int),
        doc.updated_at.data.contains 'T' = true →
        doc.updated_at.data.contains '+' = true →
        parseDateTimeChain doc.updated_at.data = some t →
        0 ≤ t → t < 2 ^ 64 →
        (profileOfDoc now doc).updated_at = t.toNat) ∧
    (profileOfDoc 0 (mkDoc "2022-03-01T00:00:00+00:00")).updated_at = 1646092800 ∧
    (profileOfDoc 0 (mkDoc "2022-03-01T00:00:00.123+0000")).updated_at = 1646092800 ∧
    (profileOfDoc 0 (mkDoc "2022-03-01T00:00:00+0000")).updated_at = 1646092800 ∧
    (profileOfDoc 0 (mkDoc "2022-03-01T00:00:00.123456+00:00")).updated_at = 1646092800 := by
  refine ⟨?_, by decide, by decide, by decide, by decide⟩
  intro now doc t hT hP hc h0 h64
  have hmem : 'T' ∈ doc.updated_at.data := by simpa using hT
  have hu : parseU64 doc.updated_at = none := parseU64_eq_none hmem (by decide) (by decide)
  simp only [profileOfDoc]
  rw [timestampFromString_of_chain hT hP hu hc now]
  unfold u64OfInt
  rw [Int.emod_eq_of_lt h0 h64]

/-- Witness for C2's general statement at the compact-offset literal. -/
theorem reverse_datetime_correct_witness :
    (profileOfDoc 7 (mkDoc "2022-03-01T00:00:00+0000")).updated_at =
      Int.toNat 1646092800 :=
  reverse_datetime_correct.1 7 (mkDoc "2022-03-01T00:00:00+0000") 1646092800
    (by decide) (by decide) (by decide) (by decide) (by decide)

/-- Counterexample to C2 as stated: "2022-03-01T00:00:00-05:00" matches
the pattern `±HH:MM` variant (the chain parses it to the correct epoch
value 1646110800), but the string contains no `+`, so the code's
heuristic skips the date-time chain and substitutes the wall clock
(here 0) instead of the correct epoch seconds. -/
theorem reverse_datetime_counterexample :
    parseDateTimeChain "2022-03-01T00:00:00-05:00".data = some 1646110800 ∧
    (profileOfDoc 0 (mkDoc "2022-03-01T00:00:00-05:00")).updated_at = 0 ∧
    (profileOfDoc 0 (mkDoc "2022-03-01T00:00:00-05:00")).updated_at ≠ 1646110800 :=
  ⟨by decide, by decide, by decide⟩

/-- C3: the reverse conversion is total (it is a plain function of the
Document and the wall clock), and whenever the `u64` parse fails and
the date-time chain fails — including whenever the string does not
contain both a literal `T` and a literal `+` — the resulting Record's
`updated_at` is the wall-clock value read at conversion time. -/
theorem reverse_fallback_total (now : Nat) (doc : UserProfileDocument)
    (hu : parseU64 doc.updated_at = none)
    (h : parseDateTimeChain doc.updated_at.data = none ∨
      (doc.updated_at.data.contains 'T' && doc.updated_at.data.contains '+') = false) :
    (profileOfDoc now doc).updated_at = now := by
  simp only [profileOfDoc]
  exact timestampFromString_fallback hu h now

/-- Witness for C3 at the literal document timestamp
"not-a-timestamp". -/
theorem reverse_fallback_total_witness :
    (profileOfDoc 7 (mkDoc "not-a-timestamp")).updated_at = 7 :=
  reverse_fallback_total 7 (mkDoc "not-a-timestamp") (by decide) (Or.inl (by decide))

/-- C5 (amended): the forward conversion is a pure function of the
Record, and the reverse conversion is independent of the wall clock —
hence deterministic across evaluations — whenever the timestamp is
handled by step 1 or step 2 of the fallback chain; only Documents that
reach the step-3 fallback depend on the conversion-time clock. -/
theorem reverse_deterministic_when_parsed (doc : UserProfileDocument) (t1 t2 : Nat)
    (h : timestampParseOk doc.updated_at = true) :
    profileOfDoc t1 doc = profileOfDoc t2 doc := by
  simp only [profileOfDoc, UserProfile.mk.injEq, true_and, and_true]
  exact timestampFromString_indep h t1 t2

/-- Witness for C5's amended statement at a numeric timestamp. -/
theorem reverse_deterministic_when_parsed_witness :
    profileOfDoc 0 (mkDoc "1646092800") = profileOfDoc 99 (mkDoc "1646092800") :=
  reverse_deterministic_when_parsed (mkDoc "1646092800") 0 99 (by decide)

/-- Counterexample to C5 as stated: two evaluations of the reverse
conversion on the same unparseable Document, at wall-clock instants 0
and 1, return different Records, so the reverse direction is not
deterministic. -/
theorem reverse_clock_dependence_counterexample :
    (profileOfDoc 0 (mkDoc "not-a-timestamp")).updated_at = 0 ∧
    (profileOfDoc 1 (mkDoc "not-a-timestamp")).updated_at = 1 ∧
    profileOfDoc 0 (mkDoc "not-a-timestamp") ≠ profileOfDoc 1 (mkDoc "not-a-timestamp") :=
  ⟨by decide, by decide, by decide⟩

/-- C6: the Schema Definition constant has a non-empty searchable
attribute list, a non-empty ranking rule list drawn entirely from the
fixed vocabulary, the single distinct attribute "username", and "fid"
in both the filterable and the sortable attribute sets. -/
theorem schema_constant_wellformed :
    (get_user_profile_schema.searchable.map fun a => a.attributes.isEmpty) = some false ∧
    (get_user_profile_schema.ranking.map fun r => r.rules.isEmpty) = some false ∧
    (get_user_profile_schema.ranking.map fun r =>
      r.rules.all fun x => rankingVocabulary.contains x) = some true ∧
    get_user_profile_schema.distinct_attribute = "username" ∧
    (get_user_profile_schema.filterable.map fun f => f.attributes.contains "fid") = some true ∧
    (get_user_profile_schema.sortable.map fun f => f.attributes.contains "fid") = some true :=
  ⟨by decide, by decide, by decide, by decide, by decide, by decide⟩

/-- C7: the search operation passes query, limit, offset and filter
through to the store unchanged, and returns exactly the store's hit
sequence with the reverse conversion applied to each Document, in the
store's order, with no re-ranking, filtering or truncation; a store
error is passed through as a Client error. -/
theorem search_converts_hits_in_order
    (store : String → Option Nat → Option Nat → Option String →
      Except String (List UserProfileDocument))
    (query : String) (limit offset : Option Nat) (filter : Option String) (now : Nat) :
    (∀ hits, store query limit offset filter = Except.ok hits →
        search_user_profiles store query limit offset filter now =
          Except.ok (hits.map (profileOfDoc now))) ∧
    (∀ e, store query limit offset filter = Except.error e →
        search_user_profiles store query limit offset filter now =
          Except.error (MeilisearchSchemaError.Client e)) := by
  constructor
  · intro hits h
    unfold search_user_profiles
    rw [h]
  · intro e h
    unfold search_user_profiles
    rw [h]

/-- Witness for C7 with a concrete two-hit store response. -/
theorem search_converts_hits_in_order_witness :
    search_user_profiles (fun _ _ _ _ => Except.ok [mkDoc "1646092800", mkDoc "x"])
      "alice" (some 10) none none 5 =
      Except.ok ([mkDoc "1646092800", mkDoc "x"].map (profileOfDoc 5)) :=
  (search_converts_hits_in_order (fun _ _ _ _ => Except.ok [mkDoc "1646092800", mkDoc "x"])
    "alice" (some 10) none none 5).1 [mkDoc "1646092800", mkDoc "x"] rfl

/-- Counterexample to C8 as stated: on a Document whose timestamp takes
the step-3 wall-clock fallback, the conversion emits no log event at
all — the substitution is silent. -/
theorem fallback_unlogged_counterexample :
    (profileOfDocEvents 0 (mkDoc "not-a-timestamp")).1.updated_at = 0 ∧
    (profileOfDocEvents 0 (mkDoc "not-a-timestamp")).2 = [] :=
  ⟨by decide, rfl⟩

/-- C8 (amended): the reverse conversion emits no observable signal on
any path — the `From` impl contains no tracing call — so in particular
the step-3 substitution is silent. -/
theorem reverse_conversion_emits_no_events (now : Nat) (doc : UserProfileDocument) :
    (profileOfDocEvents now doc).2 = [] := rfl

/-- C9: a Document whose timestamp parses in the date-time chain to an
instant strictly before the Unix epoch converts to the negative epoch
value cast `as u64`, i.e. wrapped modulo `2 ^ 64`; one second before
the epoch yields `2 ^ 64 - 1`, not a clamped or error result. -/
theorem reverse_pre_epoch_wraps :
    (∀ (now : Nat) (doc : UserProfileDocument) (t : Int),
        doc.updated_at.data.contains 'T' = true →
        doc.updated_at.data.contains '+' = true →
        parseDateTimeChain doc.updated_at.data = some t →
        t < 0 →
        (profileOfDoc now doc).updated_at = (t % (2 ^ 64 : Int)).toNat) ∧
    parseDateTimeChain "1969-12-31T23:59:59+00:00".data = some (-1) ∧
    (profileOfDoc 0 (mkDoc "1969-12-31T23:59:59+00:00")).updated_at = 2 ^ 64 - 1 := by
  refine ⟨?_, by decide, by decide⟩
  intro now doc t hT hP hc _
  have hmem : 'T' ∈ doc.updated_at.data := by simpa using hT
  have hu : parseU64 doc.updated_at = none := parseU64_eq_none hmem (by decide) (by decide)
  simp only [profileOfDoc]
  rw [timestampFromString_of_chain hT hP hu hc now]
  rfl

/-- Witness for C9's general statement one second before the epoch. -/
theorem reverse_pre_epoch_wraps_witness :
    (profileOfDoc 3 (mkDoc "1969-12-31T23:59:59+00:00")).updated_at =
      ((-1 : Int) % (2 ^ 64 : Int)).toNat :=
  reverse_pre_epoch_wraps.1 3 (mkDoc "1969-12-31T23:59:59+00:00") (-1)
    (by decide) (by decide) (by decide) (by decide)

/-- C10: `apply_user_profile_schema` never returns the Schema
(SchemaConfigurationError) variant, whatever the store's two calls
answer: the guard on a missing index setting is unreachable because
`get_user_profile_schema` unconditionally sets the index field. -/
theorem apply_schema_error_unreachable
    (createIndex : String → String → Except String Nat)
    (setSettings : String → Settings → Except String Nat) :
    isSchemaConfigError (apply_user_profile_schema createIndex setSettings) = false ∧
    get_user_profile_schema.index = some { name := "user_profiles", primary_key := "id" } := by
  constructor
  · simp only [apply_user_profile_schema, get_user_profile_schema]
    split
    · split <;> rfl
    · split
      · split <;> rfl
      · rfl
  · rfl
